import Mathlib

/-!
# Verification of the boat-booking reservation and payment-settlement core

Shallow embedding of the two route handlers that form the core of the
repository:

* `src/backend/src/routes/checkoutRoutes.ts` — `POST /create-checkout-session`
  (request validation, boat lookup, price calculation, booking creation);
* `src/backend/src/routes/webhookRoutes.ts` — `POST /webhook`
  (signature verification, `checkout.session.completed` handling, the
  unconditional `update { paid: true }`).

Persistence (the Prisma `Booking` table) is modelled as a list of records;
the Stripe library calls (`stripe.webhooks.constructEvent`,
`stripe.checkout.sessions.create`) are external collaborators: signature
verification is abstracted as its boolean outcome, session creation as the
returned success response.
-/

namespace BoatBooking

/-- A boat row as used by the checkout route: the three-tier rate schedule
(`hourlyRate`, `halfDayRate`, `fullDayRate` — `DOUBLE PRECISION` columns,
modelled as rationals) keyed by id. -/
structure Boat where
  id : String
  hourlyRate : ℚ
  halfDayRate : ℚ
  fullDayRate : ℚ
  deriving DecidableEq, Repr

/-- A `Booking` row as created by `prisma.booking.create` in
`checkoutRoutes.ts` lines 55-66 and mutated by `prisma.booking.update` in
`webhookRoutes.ts` lines 42-45.  `price` is `Option ℚ`: `none` models the
JavaScript `NaN` that `boat.hourlyRate * durationHours` produces when the
request omitted `durationHours`. -/
structure BookingRecord where
  id : String
  boatId : Option String
  portId : Option String
  userId : Option String
  includeCaptain : Bool
  price : Option ℚ
  paid : Bool
  deriving DecidableEq, Repr

/-- The request body of `POST /create-checkout-session`
(`checkoutRoutes.ts` lines 17-26).  Every field may be absent
(`undefined` in JavaScript). -/
structure CheckoutReq where
  boatId : Option String
  portId : Option String
  userId : Option String
  startTime : Option String
  endTime : Option String
  includeCaptain : Option Bool
  bookingType : Option String
  durationHours : Option ℚ
  deriving DecidableEq, Repr

/-- JavaScript truthiness of a possibly-absent string: `undefined` and the
empty string are falsy, every other string is truthy.  This is the test the
`!boatId || ...` validation on line 29 applies. -/
def truthy : Option String → Bool
  | none => false
  | some s => s ≠ ""

/-- Responses of `POST /create-checkout-session`.  `validationError` is the
400 `Missing required booking data`; `boatNotFound` the 404
`Boat not found`; `sessionCreated` the 200 success path (the booking has
been persisted and a Stripe session created), carrying the computed price. -/
inductive CheckoutResp where
  | validationError
  | boatNotFound
  | sessionCreated (price : Option ℚ)
  deriving DecidableEq, Repr

/-- The price computation of `checkoutRoutes.ts` lines 37-52:
`let price = 0` followed by the `bookingType` if-chain, then the captain
surcharge if-chain.  An absent `durationHours` (`none`) makes the
`per_hour` product `NaN`, modelled as `none`; adding the surcharge to `NaN`
stays `NaN`, hence the `Option.map`. -/
def calculatePrice (bookingType : String) (durationHours : Option ℚ)
    (includeCaptain : Bool) (hourlyRate halfDayRate fullDayRate : ℚ) :
    Option ℚ :=
  let base : Option ℚ :=
    if bookingType = "per_hour" then
      durationHours.map (fun d => hourlyRate * d)
    else if bookingType = "half_day" then some halfDayRate
    else if bookingType = "full_day" then some fullDayRate
    else some 0
  if includeCaptain then
    base.map (fun b =>
      b + (if bookingType = "per_hour" then 100
        else if bookingType = "half_day" then 200
        else if bookingType = "full_day" then 400
        else 0))
  else base

/-- `prisma.boat.findUnique({ where: { id } })` over the catalog. -/
def findBoat (catalog : List Boat) (id : String) : Option Boat :=
  catalog.find? (fun b => b.id = id)

/-- The `POST /create-checkout-session` handler (`checkoutRoutes.ts` lines
14-103).  `newId` stands for the id Prisma generates for the created
booking.  Returns the HTTP response and the booking table after the
request.  `req.boatId.getD ""` is safe to read as the present value: the
validation guard guarantees `boatId` is a truthy string on that path.
`includeCaptain.getD false` is the JavaScript truthiness of the flag: an
absent flag is falsy in `if (includeCaptain)` and Prisma fills the
`@default(false)` column. -/
def createCheckoutSession (catalog : List Boat) (newId : String)
    (req : CheckoutReq) (store : List BookingRecord) :
    CheckoutResp × List BookingRecord :=
  if !(truthy req.boatId && truthy req.portId && truthy req.userId &&
      truthy req.startTime && truthy req.endTime && truthy req.bookingType) then
    (.validationError, store)
  else
    match findBoat catalog (req.boatId.getD "") with
    | none => (.boatNotFound, store)
    | some boat =>
      let bt := req.bookingType.getD ""
      let captain := req.includeCaptain.getD false
      let price := calculatePrice bt req.durationHours captain
        boat.hourlyRate boat.halfDayRate boat.fullDayRate
      let booking : BookingRecord :=
        ⟨newId, req.boatId, req.portId, req.userId, captain, price, false⟩
      (.sessionCreated price, store ++ [booking])

/-! ## The webhook handler -/

/-- Responses of `POST /webhook` (`webhookRoutes.ts`).  `secretError` is the
500 `Webhook secret not configured`; `signatureError` the 400
`Webhook Error` returned when `stripe.webhooks.constructEvent` throws;
`received` the 200 `{received: true}` acknowledgment on line 59. -/
inductive WebhookResp where
  | secretError
  | signatureError
  | received
  deriving DecidableEq, Repr

/-- The HTTP status code each webhook response is sent with. -/
def WebhookResp.status : WebhookResp → Nat
  | .secretError => 500
  | .signatureError => 400
  | .received => 200

/-- `prisma.booking.update({ where: { id }, data: { paid: true } })`:
sets `paid` on the unique record with that id, `none` models the `P2025`
exception Prisma throws when no record matches. -/
def markPaid : List BookingRecord → String → Option (List BookingRecord)
  | [], _ => none
  | b :: rest, id =>
    if b.id = id then some ({ b with paid := true } :: rest)
    else (markPaid rest id).map (b :: ·)

/-- Result of one webhook invocation: the HTTP response, the booking table
afterwards, and whether the `paid := true` update was applied (the
`marked as paid successfully` log line on line 46). -/
structure WebhookResult where
  resp : WebhookResp
  store : List BookingRecord
  updateApplied : Bool
  deriving DecidableEq, Repr

/-- The `POST /webhook` handler (`webhookRoutes.ts` lines 15-60).
`secretConfigured` is whether `STRIPE_WEBHOOK_SECRET` is set; `sigValid` is
the outcome of `stripe.webhooks.constructEvent` on the raw body bytes and
the `stripe-signature` header (the Stripe library verifies the HMAC over
the body exactly as received); `eventType` and `bookingId` are
`event.type` and `session.metadata?.bookingId` of the parsed event.
The `update` exception is caught and only logged (lines 47-49); every
post-verification path falls through to `res.json({received: true})`. -/
def handleWebhook (secretConfigured : Bool) (sigValid : Bool)
    (eventType : String) (bookingId : Option String)
    (store : List BookingRecord) : WebhookResult :=
  if !secretConfigured then ⟨.secretError, store, false⟩
  else if !sigValid then ⟨.signatureError, store, false⟩
  else if eventType = "checkout.session.completed" then
    match bookingId with
    | some id =>
      match markPaid store id with
      | some updated => ⟨.received, updated, true⟩
      | none => ⟨.received, store, false⟩
    | none => ⟨.received, store, false⟩
  else ⟨.received, store, false⟩

/-! ## Helper lemmas -/

/-- `markPaid` reports the Prisma `P2025` not-found error exactly on the
stores holding no record with the requested id. -/
theorem markPaid_eq_none (store : List BookingRecord) (id : String)
    (h : ∀ b ∈ store, b.id ≠ id) : markPaid store id = none := by
  induction store with
  | nil => rfl
  | cons b rest ih =>
    have hb : b.id ≠ id := h b (List.mem_cons_self b rest)
    have hrest : ∀ x ∈ rest, x.id ≠ id := fun x hx => h x (List.mem_cons_of_mem b hx)
    simp [markPaid, hb, ih hrest]

/-- `findBoat` misses exactly when no catalog entry carries the id. -/
theorem findBoat_eq_none (catalog : List Boat) (id : String)
    (h : ∀ b ∈ catalog, b.id ≠ id) : findBoat catalog id = none := by
  induction catalog with
  | nil => rfl
  | cons b rest ih =>
    have hb : b.id ≠ id := h b (List.mem_cons_self b rest)
    have hrest : ∀ x ∈ rest, x.id ≠ id := fun x hx => h x (List.mem_cons_of_mem b hx)
    simp [findBoat, List.find?, hb, ih hrest]
    exact hrest

/-! ## Claims about the webhook (Settlement Reconciler) -/

/-- Claim C1, evaluated on the code at the failing input: the store holds
the single unsettled booking `"b1"`; the same signature-valid
`checkout.session.completed` event for `"b1"` is delivered twice.  The
first invocation acknowledges with 200 `{received: true}` and applies the
`paid := true` update; the second invocation — on the store the first one
produced — returns the identical 200 `{received: true}` acknowledgment and
applies the unconditional update again.  No `AlreadySettled` outcome
exists: the duplicate is indistinguishable from the first delivery, and
both events are accepted. -/
theorem C1_duplicate_event_not_distinguished :
    handleWebhook true true "checkout.session.completed" (some "b1")
        [⟨"b1", some "boat1", some "p1", some "u1", false, some 200, false⟩] =
      ⟨.received,
        [⟨"b1", some "boat1", some "p1", some "u1", false, some 200, true⟩],
        true⟩ ∧
    handleWebhook true true "checkout.session.completed" (some "b1")
        [⟨"b1", some "boat1", some "p1", some "u1", false, some 200, true⟩] =
      ⟨.received,
        [⟨"b1", some "boat1", some "p1", some "u1", false, some 200, true⟩],
        true⟩ := by
  decide

/-- Claim C2 as stated is false at this input: a signature-valid
`checkout.session.completed` event whose `bookingId` `"ghost"` matches no
stored reservation leaves the (empty) store unchanged, but the caller does
not receive an `UnknownReservationError` outcome — the handler catches the
not-found failure of the update and answers with the 200
`{received: true}` success acknowledgment. -/
theorem C2_unknown_id_yields_success_ack :
    handleWebhook true true "checkout.session.completed" (some "ghost") [] =
      ⟨.received, [], false⟩ ∧
    WebhookResp.received.status = 200 := by
  decide

/-- Claim C2 amended: a signature-valid confirmation event whose
correlation id matches no stored reservation leaves the store unchanged
and applies no update; the not-found error is swallowed and the caller
receives the 200 `{received: true}` acknowledgment. -/
theorem C2_unknown_id_store_unchanged (store : List BookingRecord)
    (id : String) (h : ∀ b ∈ store, b.id ≠ id) :
    handleWebhook true true "checkout.session.completed" (some id) store =
      ⟨.received, store, false⟩ := by
  simp [handleWebhook, markPaid_eq_none store id h]

/-- Witness for `C2_unknown_id_store_unchanged` at a concrete store. -/
theorem C2_unknown_id_store_unchanged_witness :
    (∀ b ∈ [(⟨"b1", none, none, none, false, some 100, false⟩ : BookingRecord)],
      b.id ≠ "ghost") ∧
    handleWebhook true true "checkout.session.completed" (some "ghost")
        [⟨"b1", none, none, none, false, some 100, false⟩] =
      ⟨.received, [⟨"b1", none, none, none, false, some 100, false⟩], false⟩ :=
  ⟨by decide,
    C2_unknown_id_store_unchanged
      [⟨"b1", none, none, none, false, some 100, false⟩] "ghost" (by decide)⟩

/-- Claim C3 as stated is false at this input: a signature-valid
`checkout.session.completed` event with no `bookingId` in its metadata
does not mutate the store, but it is not rejected with a
`MissingCorrelationError` — the handler logs a warning and answers with
the 200 `{received: true}` success acknowledgment. -/
theorem C3_missing_id_yields_success_ack :
    handleWebhook true true "checkout.session.completed" none
        [⟨"b1", none, none, none, false, some 100, false⟩] =
      ⟨.received, [⟨"b1", none, none, none, false, some 100, false⟩], false⟩ ∧
    WebhookResp.received.status = 200 := by
  decide

/-- Claim C3 amended: a signature-valid successful-payment event carrying
no correlation token never mutates any stored state and applies no update;
the event is dropped with a logged warning and the endpoint acknowledges
with 200 `{received: true}` rather than failing with an error. -/
theorem C3_missing_id_no_mutation (store : List BookingRecord) :
    handleWebhook true true "checkout.session.completed" none store =
      ⟨.received, store, false⟩ := by
  rfl

/-- Claim C4: when signature verification of an inbound event fails, the
handler rejects it with the 400 `Webhook Error` response — a non-5xx
rejection — the store is never mutated and no update is applied, whatever
event type and correlation id the event claims. -/
theorem C4_invalid_signature_rejected (eventType : String)
    (bookingId : Option String) (store : List BookingRecord) :
    handleWebhook true false eventType bookingId store =
      ⟨.signatureError, store, false⟩ ∧
    WebhookResp.signatureError.status = 400 ∧
    WebhookResp.signatureError.status < 500 := by
  exact ⟨rfl, rfl, by norm_num [WebhookResp.status]⟩

/-- Claim C5: once the signature verifies (and the secret is configured),
the webhook always answers 200 `{received: true}` — also when the
correlation id is absent, when it matches no stored booking (the update
throws and is caught), and for every other event type. -/
theorem C5_verified_event_always_acked (eventType : String)
    (bookingId : Option String) (store : List BookingRecord) :
    (handleWebhook true true eventType bookingId store).resp = .received ∧
    (handleWebhook true true eventType bookingId store).resp.status = 200 := by
  have h : (handleWebhook true true eventType bookingId store).resp = .received := by
    unfold handleWebhook
    by_cases het : eventType = "checkout.session.completed"
    · simp only [het, Bool.not_true, if_false, if_true, if_pos rfl]
      cases bookingId with
      | none => rfl
      | some id =>
        cases h : markPaid store id <;> simp [h]
    · simp [het]
  exact ⟨h, by rw [h]; rfl⟩

/-! ## Claims about checkout (Price Calculator and Orchestrator) -/

/-- Claim C6: the price of a recognized mode is `hourlyRate × duration`
for `per_hour`, `halfDayRate` for `half_day` (whatever the duration
field holds), `fullDayRate` for `full_day`; the captain add-on adds the
mode-specific constants 100, 200 and 400 — three distinct surcharges —
and the schedule (50, 300, 500) prices a 4-hour `per_hour` request
without captain at 200. -/
theorem C6_price_formula (hourlyRate halfDayRate fullDayRate d : ℚ)
    (dOpt : Option ℚ) :
    calculatePrice "per_hour" (some d) false hourlyRate halfDayRate fullDayRate
      = some (hourlyRate * d) ∧
    calculatePrice "half_day" dOpt false hourlyRate halfDayRate fullDayRate
      = some halfDayRate ∧
    calculatePrice "full_day" dOpt false hourlyRate halfDayRate fullDayRate
      = some fullDayRate ∧
    calculatePrice "per_hour" (some d) true hourlyRate halfDayRate fullDayRate
      = some (hourlyRate * d + 100) ∧
    calculatePrice "half_day" dOpt true hourlyRate halfDayRate fullDayRate
      = some (halfDayRate + 200) ∧
    calculatePrice "full_day" dOpt true hourlyRate halfDayRate fullDayRate
      = some (fullDayRate + 400) ∧
    ((100 : ℚ) ≠ 200 ∧ (100 : ℚ) ≠ 400 ∧ (200 : ℚ) ≠ 400) ∧
    calculatePrice "per_hour" (some 4) false 50 300 500 = some 200 := by
  refine ⟨rfl, rfl, rfl, rfl, rfl, rfl, ⟨by norm_num, by norm_num, by norm_num⟩, ?_⟩
  simp [calculatePrice]
  norm_num

/-- Claim C7, evaluated on the code at the failing input: a request whose
`bookingType` `"per_week"` is none of the three recognized values, with
every other field present and a matching boat in the catalog, is not
rejected — no `InvalidModeError` exists in the handler — the price falls
through as 0, a booking with price 0 is persisted and a checkout session
for it is created. -/
theorem C7_unrecognized_mode_accepted :
    createCheckoutSession [⟨"boat1", 50, 300, 500⟩] "bk1"
        ⟨some "boat1", some "p1", some "u1", some "2025-06-01T10:00",
          some "2025-06-01T14:00", some false, some "per_week", some 4⟩ [] =
      (.sessionCreated (some 0),
        [⟨"bk1", some "boat1", some "p1", some "u1", false, some 0, false⟩]) := by
  decide

/-- Claim C8: for every recognized mode, non-negative rate schedule and
non-negative duration, the computed price is defined and non-negative, and
it is a pure function of exactly those inputs: evaluating it twice on the
same inputs yields the same price. -/
theorem C8_price_nonneg_pure (bookingType : String) (d : ℚ) (addOn : Bool)
    (hourlyRate halfDayRate fullDayRate : ℚ)
    (hmode : bookingType = "per_hour" ∨ bookingType = "half_day" ∨
      bookingType = "full_day")
    (hhr : 0 ≤ hourlyRate) (hhd : 0 ≤ halfDayRate) (hfd : 0 ≤ fullDayRate)
    (hdur : 0 ≤ d) :
    (∃ p, calculatePrice bookingType (some d) addOn
        hourlyRate halfDayRate fullDayRate = some p ∧ 0 ≤ p) ∧
    calculatePrice bookingType (some d) addOn hourlyRate halfDayRate fullDayRate
      = calculatePrice bookingType (some d) addOn
          hourlyRate halfDayRate fullDayRate := by
  refine ⟨?_, rfl⟩
  have hmul : 0 ≤ hourlyRate * d := mul_nonneg hhr hdur
  rcases hmode with h | h | h <;> subst h <;> cases addOn <;>
    simp [calculatePrice] <;> positivity

/-- Witness for `C8_price_nonneg_pure` on the spec's example schedule. -/
theorem C8_price_nonneg_pure_witness :
    (∃ p, calculatePrice "per_hour" (some 4) false 50 300 500 = some p ∧
      0 ≤ p) ∧
    calculatePrice "per_hour" (some 4) false 50 300 500
      = calculatePrice "per_hour" (some 4) false 50 300 500 :=
  C8_price_nonneg_pure "per_hour" 4 false 50 300 500 (Or.inl rfl)
    (by norm_num) (by norm_num) (by norm_num) (by norm_num)

/-- Claim C9 as stated is false at this input: a request whose
`durationHours` field is absent (and whose add-on flag is absent as well)
is not rejected with a `ValidationError` — the six checked fields are
present, so the handler proceeds, prices the `half_day` request at 300 and
persists the booking. -/
theorem C9_missing_duration_accepted :
    createCheckoutSession [⟨"boat1", 50, 300, 500⟩] "bk1"
        ⟨some "boat1", some "p1", some "u1", some "2025-06-01T10:00",
          some "2025-06-01T14:00", none, some "half_day", none⟩ [] =
      (.sessionCreated (some 300),
        [⟨"bk1", some "boat1", some "p1", some "u1", false, some 300, false⟩]) := by
  decide

/-- Claim C9 amended: the request validation rejects with
`ValidationError` exactly when one of the six checked fields — asset id,
location id, requester id, start time, end time, mode — is absent (or
empty); the duration and the add-on flag are not validated. -/
theorem C9_validation_covers_six_fields (catalog : List Boat)
    (newId : String) (req : CheckoutReq) (store : List BookingRecord) :
    (createCheckoutSession catalog newId req store).1 = .validationError ↔
      (truthy req.boatId && truthy req.portId && truthy req.userId &&
        truthy req.startTime && truthy req.endTime &&
        truthy req.bookingType) = false := by
  unfold createCheckoutSession
  cases hc : (truthy req.boatId && truthy req.portId && truthy req.userId &&
      truthy req.startTime && truthy req.endTime && truthy req.bookingType) with
  | false => simp
  | true =>
    cases hb : findBoat catalog (req.boatId.getD "") <;> simp [hb]

/-- Claim C10: a request that passes validation but names an asset id
matching no boat in the catalog fails with the 404 `Boat not found`
response, and the booking store is left unchanged — no reservation is
persisted. -/
theorem C10_boat_not_found (catalog : List Boat) (newId : String)
    (req : CheckoutReq) (store : List BookingRecord)
    (hval : (truthy req.boatId && truthy req.portId && truthy req.userId &&
      truthy req.startTime && truthy req.endTime &&
      truthy req.bookingType) = true)
    (hmiss : ∀ b ∈ catalog, b.id ≠ req.boatId.getD "") :
    createCheckoutSession catalog newId req store = (.boatNotFound, store) := by
  unfold createCheckoutSession
  rw [hval]
  simp [findBoat_eq_none catalog (req.boatId.getD "") hmiss]

/-- Witness for `C10_boat_not_found`: an empty catalog. -/
theorem C10_boat_not_found_witness :
    (truthy (some "boat9") && truthy (some "p1") && truthy (some "u1") &&
      truthy (some "s") && truthy (some "e") && truthy (some "half_day"))
      = true ∧
    createCheckoutSession [] "bk1"
        ⟨some "boat9", some "p1", some "u1", some "s", some "e",
          some false, some "half_day", some 2⟩ [] =
      (.boatNotFound, []) :=
  ⟨by decide,
    C10_boat_not_found [] "bk1"
      ⟨some "boat9", some "p1", some "u1", some "s", some "e",
        some false, some "half_day", some 2⟩ [] (by decide) (by decide)⟩

end BoatBooking
